import Mathlib

/-
Verification of the op-challenger fault service coordination layer
(op-challenger/fault/service.go) against its specification.

Byte sequences are modelled as `List Nat` with each element < 256.
Go errors produced by fmt.Errorf are modelled by the inductive `GoError`,
recording the format string and the optional wrapped error (%w).
-/

set_option maxRecDepth 100000

namespace OpChallenger

/-! ### Keccak-256

The source hashes the provider prestate with `crypto.Keccak256` from
go-ethereum.  That is the original Keccak-256 (pad10*1 with domain byte
0x01, rate 1088 bits, 256-bit digest), embedded here over `List Nat`
byte sequences with 64-bit lanes as naturals reduced mod 2^64. -/

/-- Rotate a 64-bit lane left by `n` bits. -/
def rotl64 (x n : Nat) : Nat :=
  ((x <<< (n % 64)) ||| (x >>> (64 - n % 64))) % 2 ^ 64

/-- The 24 Keccak-f[1600] round constants. -/
def keccakRC : List Nat :=
  [0x1,
   0x8082,
   0x800000000000808A,
   0x8000000080008000,
   0x808B,
   0x80000001,
   0x8000000080008081,
   0x8000000000008009,
   0x8A,
   0x88,
   0x80008009,
   0x8000000A,
   0x8000808B,
   0x800000000000008B,
   0x8000000000008089,
   0x8000000000008003,
   0x8000000000008002,
   0x8000000000000080,
   0x800A,
   0x800000008000000A,
   0x8000000080008081,
   0x8000000000008080,
   0x80000001,
   0x8000000080008008]

/-- Rho-step rotation offsets `r[x][y]`, row `x` listing `y = 0..4`. -/
def keccakRot : List (List Nat) :=
  [[0, 36, 3, 41, 18],
   [1, 44, 10, 45, 2],
   [62, 6, 43, 15, 61],
   [28, 55, 25, 21, 56],
   [27, 20, 39, 8, 14]]

/-- Lane `A[x][y]` of a 25-lane state stored row-major as `x + 5 * y`. -/
def lane (s : List Nat) (x y : Nat) : Nat :=
  s.getD (x % 5 + 5 * (y % 5)) 0

/-- Theta step of Keccak-f. -/
def keccakTheta (s : List Nat) : List Nat :=
  let c := (List.range 5).map fun x =>
    lane s x 0 ^^^ lane s x 1 ^^^ lane s x 2 ^^^ lane s x 3 ^^^ lane s x 4
  let d := (List.range 5).map fun x =>
    c.getD ((x + 4) % 5) 0 ^^^ rotl64 (c.getD ((x + 1) % 5) 0) 1
  (List.range 25).map fun i => s.getD i 0 ^^^ d.getD (i % 5) 0

/-- Combined rho and pi steps: `B[y][(2x+3y) mod 5] = rotl(A[x][y], r[x][y])`. -/
def keccakRhoPi (s : List Nat) : List Nat :=
  (List.range 25).map fun j =>
    let x := (j % 5 + 3 * (j / 5)) % 5
    let y := j % 5
    rotl64 (lane s x y) ((keccakRot.getD x []).getD y 0)

/-- Chi step: `A[x][y] = B[x][y] xor ((not B[x+1][y]) and B[x+2][y])`. -/
def keccakChi (b : List Nat) : List Nat :=
  (List.range 25).map fun j =>
    lane b (j % 5) (j / 5) ^^^
      ((lane b (j % 5 + 1) (j / 5) ^^^ 0xFFFFFFFFFFFFFFFF) &&& lane b (j % 5 + 2) (j / 5))

/-- One round of Keccak-f[1600]: theta, rho, pi, chi, iota. -/
def keccakRound (s : List Nat) (rc : Nat) : List Nat :=
  match keccakChi (keccakRhoPi (keccakTheta s)) with
  | [] => []
  | a0 :: rest => (a0 ^^^ rc) :: rest

/-- The full Keccak-f[1600] permutation (24 rounds). -/
def keccakF (s : List Nat) : List Nat :=
  keccakRC.foldl keccakRound s

/-- Keccak pad10*1 with domain byte 0x01 to a multiple of the 136-byte rate. -/
def keccakPad (msg : List Nat) : List Nat :=
  let padLen := 136 - msg.length % 136
  if padLen = 1 then msg ++ [0x81]
  else msg ++ [0x01] ++ List.replicate (padLen - 2) 0 ++ [0x80]

/-- A 64-bit lane from up to eight little-endian bytes. -/
def bytesToLane (bs : List Nat) : Nat :=
  bs.foldr (fun b acc => acc * 256 + b) 0

/-- XOR one 136-byte block into the first 17 lanes and permute. -/
def absorbBlock (s block : List Nat) : List Nat :=
  let lanes := (List.range 17).map fun i => bytesToLane ((block.drop (8 * i)).take 8)
  keccakF ((List.range 25).map fun j => s.getD j 0 ^^^ lanes.getD j 0)

/-- Absorb `n` rate-sized blocks of `msg` into the state. -/
def absorbBlocks : Nat → List Nat → List Nat → List Nat
  | 0, s, _ => s
  | n + 1, s, msg => absorbBlocks n (absorbBlock s (msg.take 136)) (msg.drop 136)

/-- The eight little-endian bytes of a 64-bit lane. -/
def laneToBytes (x : Nat) : List Nat :=
  (List.range 8).map fun i => x / 2 ^ (8 * i) % 256

/-- Keccak-256 of a byte sequence: go-ethereum crypto.Keccak256. -/
def Keccak256 (msg : List Nat) : List Nat :=
  let p := keccakPad msg
  let s := absorbBlocks (p.length / 136) (List.replicate 25 0) p
  ((List.range 4).map fun i => laneToBytes (s.getD i 0)).flatten

/-- Keccak-256 of the empty byte sequence is the well-known digest
c5d2460186f7233c927e7db2dcc703c0e500b653ca82273b7bfad8045d85a470,
pinning this embedding to the real Keccak-256 (and distinguishing it
from SHA3-256, whose empty digest starts a7ffc6f8). -/
theorem Keccak256_empty :
    Keccak256 [] =
      [0xc5, 0xd2, 0x46, 0x01, 0x86, 0xf7, 0x23, 0x3c, 0x92, 0x7e, 0x7d, 0xb2,
       0xdc, 0xc7, 0x03, 0xc0, 0xe5, 0x00, 0xb6, 0x53, 0xca, 0x82, 0x27, 0x3b,
       0x7b, 0xfa, 0xd8, 0x04, 0x5d, 0x85, 0xa4, 0x70] := by decide

/-! ### Go errors

All errors in service.go are produced by `fmt.Errorf`.  `GoError.errorf`
records the constant part of the format string together with the error
wrapped via the `%w` verb (`none` when nothing is wrapped); errors coming
back from external collaborators are `GoError.external`. -/

inductive GoError where
  | errorf (format : String) (wrapped : Option GoError)
  | external (msg : String)

/-- The error of `fmt.Errorf("trace provider's absolute prestate does not
match onchain absolute prestate")` in ValidateAbsolutePrestate. -/
def prestateMismatchError : GoError :=
  .errorf "trace provider\x27s absolute prestate does not match onchain absolute prestate" none

/-- Wrapping applied when the trace provider prestate fetch fails. -/
def providerPrestateError (e : GoError) : GoError :=
  .errorf "failed to get the trace provider\x27s absolute prestate" (some e)

/-- Wrapping applied when the on-chain prestate hash fetch fails. -/
def onchainPrestateError (e : GoError) : GoError :=
  .errorf "failed to get the onchain absolute prestate" (some e)

/-! ### Capability interfaces (service.go L23-25 and types.TraceProvider)

Only the methods service.go calls are modelled; a capability is the result
of its single call (the `ctx` argument carries no information here). -/

/-- The trace provider capability: `AbsolutePreState(ctx) -> ([]byte, error)`. -/
structure TraceProvider where
  AbsolutePreState : Except GoError (List Nat)

/-- The `Loader` interface of service.go:
`FetchAbsolutePrestateHash(ctx) -> ([]byte, error)`. -/
structure Loader where
  FetchAbsolutePrestateHash : Except GoError (List Nat)

/-- Which capability calls ValidateAbsolutePrestate performed, in order. -/
inductive CallEvent where
  | callAbsolutePreState
  | callFetchAbsolutePrestateHash
deriving DecidableEq, Repr

/-- service.go L98-112.  Fetches the trace provider prestate (wrapping a
failure and returning), hashes it with Keccak256, fetches the on-chain
prestate hash (wrapping a failure and returning), and errors unless the
two byte sequences are equal.  The second component records the sequence
of capability calls actually made. -/
def ValidateAbsolutePrestate (trace : TraceProvider) (loader : Loader) :
    Except GoError Unit × List CallEvent :=
  match trace.AbsolutePreState with
  | .error err => (.error (providerPrestateError err), [.callAbsolutePreState])
  | .ok providerPrestate =>
    let providerPrestateHash := Keccak256 providerPrestate
    match loader.FetchAbsolutePrestateHash with
    | .error err =>
        (.error (onchainPrestateError err),
         [.callAbsolutePreState, .callFetchAbsolutePrestateHash])
    | .ok onchainPrestate =>
        if providerPrestateHash = onchainPrestate then
          (.ok (), [.callAbsolutePreState, .callFetchAbsolutePrestateHash])
        else
          (.error prestateMismatchError,
           [.callAbsolutePreState, .callFetchAbsolutePrestateHash])

/-! ### Service construction (service.go L35-95) -/

/-- Game addresses, abstracted to naturals. -/
abbrev Addr := Nat

/-- The configuration fields service.go reads from `cfg`.  Payloads whose
structure the core never inspects are abstracted. -/
structure Config where
  TxMgrConfig : Nat
  L1EthRpc : String
  PprofEnabled : Bool
  MetricsEnabled : Bool
  GameFactoryAddress : Addr
  Datadir : String
  MaxConcurrency : Nat
  GameWindow : Nat
  GameAllowlist : List Addr

/-- The scheduler as constructed by NewService: `scheduler.NewScheduler(logger,
disk, cfg.MaxConcurrency, playerCreator)` with `disk = newDiskManager(cfg.Datadir)`. -/
structure Scheduler where
  maxConcurrency : Nat
  datadir : String

/-- The monitor as constructed by NewService: `newGameMonitor(logger, cl,
loader, sched, cfg.GameWindow, client.BlockNumber, cfg.GameAllowlist)`. -/
structure GameMonitor where
  gameWindow : Nat
  allowedGames : List Addr

/-- The Service value returned by NewService (logger and metrics carry no
behaviour relevant here). -/
structure Service where
  monitor : GameMonitor
  sched : Scheduler

/-- service.go L35-95.  The three fallible construction steps -
`txmgr.NewSimpleTxManager`, `client.DialEthClientWithTimeout` and
`bindings.NewDisputeGameFactory` - are external collaborators, so their
results are parameters, in source order.  The pprof and metrics servers
are started on goroutines whose failures are only logged, and the disk
manager, scheduler and monitor constructors cannot fail, so no other step
yields an error. -/
def NewService (cfg : Config) (txMgrRes dialRes bindRes : Except GoError Unit) :
    Except GoError Service :=
  match txMgrRes with
  | .error err => .error (.errorf "failed to create the transaction manager" (some err))
  | .ok _ =>
    match dialRes with
    | .error err => .error (.errorf "failed to dial L1" (some err))
    | .ok _ =>
      match bindRes with
      | .error err =>
          .error (.errorf "failed to bind the fault dispute game factory contract" (some err))
      | .ok _ =>
          .ok { monitor := { gameWindow := cfg.GameWindow, allowedGames := cfg.GameAllowlist },
                sched := { maxConcurrency := cfg.MaxConcurrency, datadir := cfg.Datadir } }

/-! ### MonitorGame (service.go L115-119) -/

/-- The observable actions of `Service.MonitorGame`. -/
inductive ServiceEvent where
  | schedulerStart
  | monitorLoopRun
  | schedulerClose
deriving DecidableEq, Repr

/-- service.go L115-119.  `s.sched.Start(ctx)`, then `defer s.sched.Close()`,
then `return s.monitor.MonitorGames(ctx)`.  The monitor loop is an external
long-running collaborator here; `monitorResult` is whatever it returns
(`none` for a nil error, e.g. on context cancellation, `some e` for an
error).  Go runs the deferred `Close` after the body computes its return
value, on every exit path, so the event trace always ends with it. -/
def MonitorGame (monitorResult : Option GoError) :
    Option GoError × List ServiceEvent :=
  (monitorResult, [.schedulerStart, .monitorLoopRun, .schedulerClose])

/-! ### Spec-modelled components

The scheduler, monitor-loop and disk-manager implementations live in
sibling files of this repository that are not available here; service.go
only constructs them.  The definitions below are modelled from the spec
(sections 4.4, 4.5 and 7) and are clearly marked as such. -/

/-- Modelled from the spec: the Scheduler worker pool (spec 4.4, 5), whose
implementation (op-challenger/fault/scheduler) is not available here.
`running` are the games with an in-flight Progress call, `queued` the
ready work waiting for a free pool slot. -/
structure SchedulerPool where
  maxConcurrency : Nat
  running : List Addr
  queued : List Addr
deriving DecidableEq, Repr

/-- The pool as the Scheduler starts it: no in-flight work, empty queue. -/
def SchedulerPool.init (maxConcurrency : Nat) : SchedulerPool :=
  ⟨maxConcurrency, [], []⟩

/-- Modelled from the spec: the pool transitions (spec 4.4, 5).  Ready work
is queued; a queued Progress call starts only when fewer than
`maxConcurrency` calls are in flight; an in-flight call may finish. -/
inductive PoolStep : SchedulerPool → SchedulerPool → Prop where
  | enqueue (p : SchedulerPool) (a : Addr) :
      PoolStep p ⟨p.maxConcurrency, p.running, p.queued ++ [a]⟩
  | start (p : SchedulerPool) (a : Addr) (rest : List Addr) :
      p.queued = a :: rest →
      p.running.length < p.maxConcurrency →
      PoolStep p ⟨p.maxConcurrency, p.running ++ [a], rest⟩
  | finish (p : SchedulerPool) (a : Addr) :
      a ∈ p.running →
      PoolStep p ⟨p.maxConcurrency, p.running.erase a, p.queued⟩

/-- States of the worker pool reachable from a given starting state. -/
inductive PoolReachable (init : SchedulerPool) : SchedulerPool → Prop where
  | refl : PoolReachable init init
  | step {q r : SchedulerPool} :
      PoolReachable init q → PoolStep q r → PoolReachable init r

/-- Modelled from the spec: the monitor admits a discovered game when the
allowlist is empty or contains its address (spec 4.5). -/
def allowedGame (allowedGames : List Addr) (game : Addr) : Bool :=
  allowedGames.isEmpty || allowedGames.contains game

/-- Modelled from the spec: the set the monitor passes to
`Scheduler.Schedule` on one tick - the loader result filtered by the
allowlist (spec 4.5); the monitor implementation is not available here. -/
def GameMonitor.tickScheduled (m : GameMonitor) (fetched : List Addr) : List Addr :=
  fetched.filter (allowedGame m.allowedGames)

/-- Outcome of one `Scheduler.Schedule` reconciliation tick. -/
structure TickResult where
  slots : List Addr
  progressed : List Addr
  released : List Addr
deriving DecidableEq, Repr

/-- Modelled from the spec: `Scheduler.Schedule` reconciliation (spec 4.4);
the scheduler implementation is not available here.  Slots whose address
stays in `games` are kept; addresses new to `games` get a slot when player
construction succeeds (`createOk`); slots whose address left `games` are
released.  Every retained or new slot has Progress invoked.  A Progress
error (`progressResult`) is logged only: it does not influence which slots
are kept, which is exactly the retention policy of spec 4.4. -/
def Schedule (createOk : Addr → Bool) (progressResult : Addr → Option GoError)
    (slots games : List Addr) : TickResult :=
  let kept := slots.filter fun a => games.contains a
  let created := (games.filter fun a => !slots.contains a).filter createOk
  { slots := kept ++ created
    progressed := kept ++ created
    released := slots.filter fun a => !games.contains a }

/-- The observable actions of challenger startup. -/
inductive StartupEvent where
  | validateCall (ok : Bool)
  | scheduleCall (games : List Addr)
deriving DecidableEq, Repr

/-- True exactly on prestate-validation events. -/
def isValidateCall : StartupEvent → Bool
  | .validateCall _ => true
  | .scheduleCall _ => false

/-- Modelled from the spec: the challenger startup sequence (spec 4.2, 6);
the caller that wires ValidateAbsolutePrestate to the monitor is not
available here.  ValidateAbsolutePrestate runs once; on failure startup
aborts with no scheduling, on success the monitor ticks run, each passing
its game set to `Scheduler.Schedule`. -/
def challengerStartup (trace : TraceProvider) (loader : Loader)
    (ticks : List (List Addr)) : List StartupEvent :=
  match (ValidateAbsolutePrestate trace loader).fst with
  | .error _ => [.validateCall false]
  | .ok _ => .validateCall true :: ticks.map .scheduleCall

/-! ### Claim theorems -/

/-- C1: for every trace-provider capability and loader capability whose
calls both return without error, ValidateAbsolutePrestate returns success
if and only if the cryptographic hash (Keccak-256) of the provider
prestate bytes is byte-for-byte equal to the loader's on-chain hash bytes;
if they differ it returns an error. -/
theorem validate_success_iff_hash_match (trace : TraceProvider) (loader : Loader)
    (p h : List Nat)
    (hp : trace.AbsolutePreState = .ok p)
    (hh : loader.FetchAbsolutePrestateHash = .ok h) :
    ((ValidateAbsolutePrestate trace loader).fst = .ok () ↔ Keccak256 p = h) ∧
      (Keccak256 p ≠ h →
        (ValidateAbsolutePrestate trace loader).fst = .error prestateMismatchError) := by
  by_cases hc : Keccak256 p = h <;>
    simp [ValidateAbsolutePrestate, hp, hh, hc]

/-- Witness for C1: a provider returning the empty prestate and a loader
returning its Keccak-256 digest make validation succeed. -/
theorem validate_success_iff_hash_match_witness :
    (ValidateAbsolutePrestate ⟨.ok []⟩ ⟨.ok (Keccak256 [])⟩).fst = .ok () :=
  (validate_success_iff_hash_match ⟨.ok []⟩ ⟨.ok (Keccak256 [])⟩ [] (Keccak256 []) rfl
    rfl).1.mpr rfl

/-- C4: a prestate mismatch yields the distinct mismatch error, which is
not equal to the wrapped error returned when the provider prestate fetch
fails nor to the wrapped error returned when the on-chain hash fetch
fails, whatever those fetches fail with. -/
theorem prestate_mismatch_error_distinct (trace : TraceProvider) (loader : Loader)
    (p h : List Nat)
    (hp : trace.AbsolutePreState = .ok p)
    (hh : loader.FetchAbsolutePrestateHash = .ok h)
    (hne : Keccak256 p ≠ h) :
    (ValidateAbsolutePrestate trace loader).fst = .error prestateMismatchError ∧
      (∀ e, prestateMismatchError ≠ providerPrestateError e) ∧
      (∀ e, prestateMismatchError ≠ onchainPrestateError e) := by
  refine ⟨by simp [ValidateAbsolutePrestate, hp, hh, hne], ?_, ?_⟩ <;>
    intro e <;>
    simp [prestateMismatchError, providerPrestateError, onchainPrestateError]

/-- Witness for C4: the empty prestate against an empty on-chain hash
mismatches (Keccak-256 digests have 32 bytes) and returns the mismatch
error. -/
theorem prestate_mismatch_error_distinct_witness :
    (ValidateAbsolutePrestate ⟨.ok []⟩ ⟨.ok []⟩).fst = .error prestateMismatchError :=
  (prestate_mismatch_error_distinct ⟨.ok []⟩ ⟨.ok []⟩ [] [] rfl rfl (by decide)).1

/-- C9: ValidateAbsolutePrestate calls the trace provider first; if that
call fails, the wrapped provider error is returned and
FetchAbsolutePrestateHash is never called; the on-chain fetch happens
(second) only once the provider call succeeds. -/
theorem validate_shortcircuit_order (trace : TraceProvider) (loader : Loader) :
    (∀ e, trace.AbsolutePreState = .error e →
      (ValidateAbsolutePrestate trace loader).fst = .error (providerPrestateError e) ∧
      (ValidateAbsolutePrestate trace loader).snd = [.callAbsolutePreState]) ∧
    (∀ p, trace.AbsolutePreState = .ok p →
      (ValidateAbsolutePrestate trace loader).snd =
        [.callAbsolutePreState, .callFetchAbsolutePrestateHash]) := by
  constructor
  · intro e he
    simp [ValidateAbsolutePrestate, he]
  · intro p hp
    cases hh : loader.FetchAbsolutePrestateHash with
    | error e => simp [ValidateAbsolutePrestate, hp, hh]
    | ok h =>
      by_cases hc : Keccak256 p = h <;>
        simp [ValidateAbsolutePrestate, hp, hh, hc]

/-- Witness for C9: with a failing provider, only the provider call is
made. -/
theorem validate_shortcircuit_order_witness :
    (ValidateAbsolutePrestate ⟨.error (.external "rpc down")⟩ ⟨.ok []⟩).snd =
      [.callAbsolutePreState] :=
  ((validate_shortcircuit_order ⟨.error (.external "rpc down")⟩ ⟨.ok []⟩).1
    (.external "rpc down") rfl).2

/-- C10: the content hash ValidateAbsolutePrestate applies is Keccak-256
over the whole prestate byte sequence: with both fetches succeeding, the
comparison succeeds exactly when the on-chain value equals Keccak256 of
the provider bytes; and this Keccak256 is the real one, yielding the
well-known digest of the empty byte sequence. -/
theorem validate_hash_is_keccak256 :
    (∀ p h : List Nat,
      (ValidateAbsolutePrestate ⟨.ok p⟩ ⟨.ok h⟩).fst = .ok () ↔ h = Keccak256 p) ∧
      Keccak256 [] =
        [0xc5, 0xd2, 0x46, 0x01, 0x86, 0xf7, 0x23, 0x3c, 0x92, 0x7e, 0x7d, 0xb2,
         0xdc, 0xc7, 0x03, 0xc0, 0xe5, 0x00, 0xb6, 0x53, 0xca, 0x82, 0x27, 0x3b,
         0x7b, 0xfa, 0xd8, 0x04, 0x5d, 0x85, 0xa4, 0x70] := by
  refine ⟨fun p h => ?_, Keccak256_empty⟩
  by_cases hc : Keccak256 p = h
  · simp [ValidateAbsolutePrestate, hc]
  · simp [ValidateAbsolutePrestate, hc]
    exact fun hh => (hc hh.symm).elim

/-- C3: NewService aborts with an error, returning no Service, exactly
when the transaction-manager creation, the L1 chain dial or the
dispute-game-factory contract binding fails, and each such error wraps
the underlying failure with a message naming the failed step. -/
theorem newService_error_iff_fatal (cfg : Config) (t d b : Except GoError Unit) :
    ((∃ s, NewService cfg t d b = .ok s) ↔ t = .ok () ∧ d = .ok () ∧ b = .ok ()) ∧
    (∀ e, t = .error e →
      NewService cfg t d b =
        .error (.errorf "failed to create the transaction manager" (some e))) ∧
    (∀ e, t = .ok () → d = .error e →
      NewService cfg t d b = .error (.errorf "failed to dial L1" (some e))) ∧
    (∀ e, t = .ok () → d = .ok () → b = .error e →
      NewService cfg t d b =
        .error (.errorf "failed to bind the fault dispute game factory contract"
          (some e))) := by
  cases t with
  | error e => simp [NewService]
  | ok u =>
    cases u
    cases d with
    | error e => simp [NewService]
    | ok u =>
      cases u
      cases b with
      | error e => simp [NewService]
      | ok u => cases u; simp [NewService]

/-- Witness for C3: a failing transaction-manager step aborts construction
with the wrapped error. -/
theorem newService_error_iff_fatal_witness :
    NewService ⟨0, "", false, false, 0, "", 4, 10, []⟩
        (.error (.external "bad config")) (.ok ()) (.ok ()) =
      .error (.errorf "failed to create the transaction manager"
        (some (.external "bad config"))) :=
  (newService_error_iff_fatal ⟨0, "", false, false, 0, "", 4, 10, []⟩
    (.error (.external "bad config")) (.ok ()) (.ok ())).2.1 (.external "bad config") rfl

/-- C2: MonitorGame starts the Scheduler before running the monitor loop,
returns exactly what the loop returns (a nil result, e.g. after context
cancellation, or an error), and on every such exit path the deferred
Scheduler Close runs last, after the loop has produced the return
value. -/
theorem monitorGame_start_loop_close (monitorResult : Option GoError) :
    (MonitorGame monitorResult).fst = monitorResult ∧
    (MonitorGame monitorResult).snd =
      [.schedulerStart, .monitorLoopRun, .schedulerClose] ∧
    (MonitorGame monitorResult).snd.getLast? = some .schedulerClose ∧
    (MonitorGame monitorResult).snd.head? = some .schedulerStart :=
  ⟨rfl, rfl, rfl, rfl⟩

/-- No prestate-validation event occurs among mapped scheduling events. -/
theorem countP_validate_map_scheduleCall (ts : List (List Addr)) :
    (ts.map StartupEvent.scheduleCall).countP isValidateCall = 0 := by
  induction ts with
  | nil => rfl
  | cons t ts ih => simp [List.countP_cons, isValidateCall, ih]

/-- C5: in the startup sequence, prestate validation runs exactly once;
any Schedule call is preceded by a successful validation (the trace starts
with the successful validation event); and when validation fails, startup
aborts with no Schedule call ever made. -/
theorem startup_validates_once_before_scheduling (trace : TraceProvider)
    (loader : Loader) (ticks : List (List Addr)) :
    (challengerStartup trace loader ticks).countP isValidateCall = 1 ∧
    (∀ gs, StartupEvent.scheduleCall gs ∈ challengerStartup trace loader ticks →
      (challengerStartup trace loader ticks).head? = some (.validateCall true) ∧
      (ValidateAbsolutePrestate trace loader).fst = .ok ()) ∧
    ((ValidateAbsolutePrestate trace loader).fst ≠ .ok () →
      challengerStartup trace loader ticks = [.validateCall false]) := by
  cases hv : (ValidateAbsolutePrestate trace loader).fst with
  | error e =>
    refine ⟨?_, ?_, fun _ => ?_⟩ <;>
      simp [challengerStartup, hv, List.countP_cons, isValidateCall]
  | ok u =>
    cases u
    refine ⟨?_, fun gs hgs => ⟨?_, rfl⟩, fun hne => (hne rfl).elim⟩ <;>
      simp [challengerStartup, hv, List.countP_cons, isValidateCall,
        countP_validate_map_scheduleCall]

/-- Witness for C5: with a provider prestate matching the on-chain hash
and one tick, the startup trace begins with the successful validation. -/
theorem startup_validates_once_before_scheduling_witness :
    (challengerStartup ⟨.ok []⟩ ⟨.ok (Keccak256 [])⟩ [[5]]).head? =
      some (.validateCall true) :=
  ((startup_validates_once_before_scheduling ⟨.ok []⟩ ⟨.ok (Keccak256 [])⟩ [[5]]).2.1
    [5] (by decide)).1

/-- C6: every state of the scheduler worker pool reachable from the
initial pool keeps its concurrency limit and never has more in-flight
Progress calls than that limit; ready work beyond the limit stays
queued. -/
theorem scheduler_concurrency_bounded (m : Nat) (s : SchedulerPool)
    (h : PoolReachable (SchedulerPool.init m) s) :
    s.maxConcurrency = m ∧ s.running.length ≤ m := by
  induction h with
  | refl => exact ⟨rfl, by simp [SchedulerPool.init]⟩
  | @step q r hr hstep ih =>
    cases hstep with
    | enqueue a => exact ih
    | start a rest hq hlt =>
      obtain ⟨h1, h2⟩ := ih
      refine ⟨h1, ?_⟩
      simp only [List.length_append, List.length_cons, List.length_nil]
      omega
    | finish a ha =>
      refine ⟨ih.1, le_trans ?_ ih.2⟩
      exact (List.erase_sublist a q.running).length_le

/-- Witness for C6: after queueing one game and starting its Progress
call under limit 2, the bound holds. -/
theorem scheduler_concurrency_bounded_witness :
    (⟨2, [7], []⟩ : SchedulerPool).maxConcurrency = 2 ∧
    (⟨2, [7], []⟩ : SchedulerPool).running.length ≤ 2 :=
  scheduler_concurrency_bounded 2 ⟨2, [7], []⟩
    (PoolReachable.step (PoolReachable.step PoolReachable.refl (PoolStep.enqueue _ 7))
      (PoolStep.start _ 7 [] rfl (by decide)))

/-- C7: with a non-empty allowlist, every address the monitor passes to
Schedule on a tick is in the allowlist (and came from the chain reader),
so a game at a non-listed address is never scheduled and hence never
receives a PlayerSlot. -/
theorem allowlist_filters_schedule (m : GameMonitor) (fetched : List Addr)
    (hne : m.allowedGames ≠ []) :
    ∀ g ∈ m.tickScheduled fetched, g ∈ m.allowedGames ∧ g ∈ fetched := by
  intro g hg
  rw [GameMonitor.tickScheduled, List.mem_filter] at hg
  refine ⟨?_, hg.1⟩
  have hall := hg.2
  rw [allowedGame, Bool.or_eq_true] at hall
  rcases hall with hemp | hcon
  · exact absurd (List.isEmpty_iff.mp hemp) hne
  · exact List.elem_iff.mp hcon

/-- Witness for C7: with allowlist [1, 2] and fetched games [1, 3], the
scheduled game 1 is allow-listed and was fetched. -/
theorem allowlist_filters_schedule_witness :
    1 ∈ (⟨10, [1, 2]⟩ : GameMonitor).allowedGames ∧ 1 ∈ [1, 3] :=
  allowlist_filters_schedule ⟨10, [1, 2]⟩ [1, 3] (by decide) 1 (by decide)

/-- A slot whose address stays in the target set survives a Schedule
tick and has Progress invoked on it. -/
theorem mem_schedule_of_mem (createOk : Addr → Bool)
    (pr : Addr → Option GoError) (slots games : List Addr) (a : Addr)
    (hslot : a ∈ slots) (hin : a ∈ games) :
    a ∈ (Schedule createOk pr slots games).slots ∧
      a ∈ (Schedule createOk pr slots games).progressed := by
  have hk : a ∈ slots.filter fun b => games.contains b :=
    List.mem_filter.mpr ⟨hslot, List.elem_iff.mpr hin⟩
  exact ⟨List.mem_append_left _ hk, List.mem_append_left _ hk⟩

/-- C8: a game with an existing PlayerSlot whose Progress call errors at
one tick keeps its slot (and was progressed) at that tick, and is
progressed again on the next tick while it stays in the target set;
moreover a slot is torn down at a tick only when its address has left the
target set (window exit or resolution), never because Progress failed. -/
theorem progress_error_retains_slot (createOk : Addr → Bool)
    (pr1 pr2 : Addr → Option GoError) (slots games1 games2 : List Addr)
    (a : Addr) (e : GoError)
    (hslot : a ∈ slots) (hin1 : a ∈ games1) (herr : pr1 a = some e) :
    a ∈ (Schedule createOk pr1 slots games1).slots ∧
    a ∈ (Schedule createOk pr1 slots games1).progressed ∧
    (a ∈ games2 →
      a ∈ (Schedule createOk pr2
            (Schedule createOk pr1 slots games1).slots games2).progressed) ∧
    (∀ b ∈ slots, b ∉ (Schedule createOk pr1 slots games1).slots → b ∉ games1) := by
  obtain ⟨h1, h2⟩ := mem_schedule_of_mem createOk pr1 slots games1 a hslot hin1
  refine ⟨h1, h2, fun hin2 => ?_, fun b hb hnb hbin => ?_⟩
  · exact (mem_schedule_of_mem createOk pr2 _ games2 a h1 hin2).2
  · exact hnb (mem_schedule_of_mem createOk pr1 slots games1 b hb hbin).1

/-- Witness for C8: game 4 in slots and in both target sets, with its
Progress call failing, is still progressed on the next tick. -/
theorem progress_error_retains_slot_witness :
    4 ∈ (Schedule (fun _ => true) (fun _ => none)
          (Schedule (fun _ => true) (fun _ => some (.external "tx failed"))
            [4] [4, 9]).slots [4]).progressed :=
  (progress_error_retains_slot (fun _ => true)
    (fun _ => some (.external "tx failed")) (fun _ => none) [4] [4, 9] [4] 4
    (.external "tx failed") (by decide) (by decide) rfl).2.2.1 (by decide)

end OpChallenger
